import Mathlib

/-!
# Verification of the bagaber-backend order ingestion and notification pipeline

Shallow embedding of the Kaspi order ingestion service, the notification
scheduler/dispatcher and the WhatsApp messaging services, together with
theorems settling the specification claims.

Timestamps are modelled as integer milliseconds (JavaScript `Date.getTime()`),
strings as Lean `String`, nullable / possibly-`undefined` JavaScript values as
`Option`, and thrown JavaScript exceptions as `Except String`.
-/

namespace Bagaber

/-! ## The model: data types and operations embedded from the source -/

/-- Milliseconds in one day (`24 * 60 * 60 * 1000` in the source). -/
def oneDay : Int := 24 * 60 * 60 * 1000

/-- `this.maxDaysPerRequest = 14` (Kaspi API limit). -/
def maxDaysPerRequest : Int := 14

/-- The `while (currentFrom < finalTo)` loop of `splitDateRange`: emit the
window `[currentFrom, min (currentFrom + 14 days) finalTo]`, then restart from
one day past the emitted window's end. -/
def splitGo (finalTo : Int) (currentFrom : Int) : List (Int × Int) :=
  if currentFrom < finalTo then
    let currentTo := min (currentFrom + maxDaysPerRequest * oneDay) finalTo
    (currentFrom, currentTo) :: splitGo finalTo (currentTo + oneDay)
  else
    []
  termination_by (finalTo - currentFrom).toNat
  decreasing_by
    simp only [maxDaysPerRequest, oneDay] at *
    omega

/-- `splitDateRange(fromDate, toDate)`: split `[fromDate, toDate]` into
windows of at most 14 days each.  (The source's `!fromDate || !toDate` guard
corresponds to absent dates and is handled by `fetchNewOrders` below; here both
dates are present integers.) -/
def splitDateRange (fromDate toDate : Int) : List (Int × Int) :=
  splitGo toDate fromDate

/-- A window list forms the chain produced by the splitter loop when the
expected start of the next window is `s`: each window starts exactly where
expected, is non-empty, spans at most 14 days, and the next window is expected
one day after this window's end. -/
def windowsChain : Int → List (Int × Int) → Prop
  | _, [] => True
  | s, (a, b) :: rest =>
      a = s ∧ a < b ∧ b - a ≤ maxDaysPerRequest * oneDay ∧
        windowsChain (b + oneDay) rest

/-- JavaScript `v || dflt` for a nullable string: `null`, `undefined` and
`""` all fall back to the default. -/
def jsOrString (v : Option String) (dflt : String) : String :=
  match v with
  | some s => if s = "" then dflt else s
  | none => dflt

/-- JavaScript `v || dflt` for a nullable number: `null`, `undefined` and
`0` all fall back to the default. -/
def jsOrInt (v : Option Int) (dflt : Int) : Int :=
  match v with
  | some n => if n = 0 then dflt else n
  | none => dflt

/-- `entry.relationships.product.data` — carries the product id. -/
structure ProductData where
  id : String
  deriving DecidableEq, Repr

/-- `entry.relationships.product` — `data` may be absent, in which case the
source's `entry.relationships.product.data.id` access throws. -/
structure ProductRef where
  data : Option ProductData
  deriving DecidableEq, Repr

/-- `entry.relationships`. -/
structure EntryRelationships where
  product : Option ProductRef
  deriving DecidableEq, Repr

/-- `entry.attributes` (all fields optional). -/
structure EntryAttributes where
  quantity : Option Int
  basePrice : Option Int
  totalPrice : Option Int
  deriving DecidableEq, Repr

/-- One order-line entry as returned by `getOrderEntries`. -/
structure RawEntry where
  id : String
  relationships : Option EntryRelationships
  attributes : Option EntryAttributes
  deriving DecidableEq, Repr

/-- `productDetails.attributes`. -/
structure ProductAttributes where
  name : Option String
  code : Option String
  deriving DecidableEq, Repr

/-- A product document as returned by `getProductDetails`. -/
structure ProductDetails where
  attributes : Option ProductAttributes
  deriving DecidableEq, Repr

/-- `kaspiOrder.attributes.customer`. -/
structure KaspiCustomer where
  cellPhone : Option String
  firstName : Option String
  lastName : Option String
  deriving DecidableEq, Repr

/-- `kaspiOrder.attributes`. -/
structure KaspiOrderAttributes where
  customer : Option KaspiCustomer
  creationDate : Int
  totalPrice : Option Int
  deriving DecidableEq, Repr

/-- A raw marketplace order; the source also guards `!kaspiOrder.id` (empty
string is falsy) and `!kaspiOrder.attributes`. -/
structure RawOrder where
  id : String
  attributes : Option KaspiOrderAttributes
  deriving DecidableEq, Repr

/-- External-API oracle for the ingestion run.  `getOrderEntries` catches all
of its own failures and returns `[]`, and `getProductDetails` catches and
returns `null`, so both collapse to total functions here. -/
structure KaspiEnv where
  orderEntries : String → List (Option RawEntry)
  productDetails : String → Option ProductDetails

/-- `getOrderEntries(orderId)`: throws internally on a missing id, which its
own catch turns into `[]`. -/
def getOrderEntries (env : KaspiEnv) (orderId : String) : List (Option RawEntry) :=
  if orderId = "" then [] else env.orderEntries orderId

/-- `getProductDetails(productId)`: throws internally on a missing id, which
its own catch turns into `null`. -/
def getProductDetails (env : KaspiEnv) (productId : String) : Option ProductDetails :=
  if productId = "" then none else env.productDetails productId

/-- One normalized line item as assembled by `processOrders`. -/
structure OrderItem where
  entryId : String
  productId : String
  name : String
  code : String
  quantity : Int
  unitPrice : Int
  totalPrice : Int
  deriving DecidableEq, Repr

/-- A persisted order row (`models/Order.js`).  `kaspiOrderId` carries a
unique constraint in the schema. -/
structure StoredOrder where
  kaspiOrderId : String
  orderDate : Int
  customerPhone : String
  customerName : String
  orderStatus : String
  orderAmount : Int
  orderItems : List OrderItem
  notificationStatus : String
  notificationSentAt : Option Int
  notificationError : Option String
  deriving DecidableEq, Repr

/-- The body of the item loop in `processOrders`: skip the entry if it, its
`relationships`, the `product` relationship, or the product `data` is missing
(the last through the caught `.data.id` TypeError), or if the product lookup
fails; otherwise assemble the normalized item with the source's fallbacks. -/
def processEntry (env : KaspiEnv) (entry? : Option RawEntry) : Option OrderItem :=
  match entry? with
  | none => none
  | some entry =>
    match entry.relationships with
    | none => none
    | some rel =>
      match rel.product with
      | none => none
      | some pref =>
        match pref.data with
        | none => none
        | some pdata =>
          match getProductDetails env pdata.id with
          | none => none
          | some productDetails =>
            some {
              entryId := entry.id
              productId := pdata.id
              name := jsOrString (productDetails.attributes.bind (·.name)) "Unknown Product"
              code := jsOrString (productDetails.attributes.bind (·.code)) ""
              quantity := jsOrInt (entry.attributes.bind (·.quantity)) 1
              unitPrice := jsOrInt (entry.attributes.bind (·.basePrice)) 0
              totalPrice := jsOrInt (entry.attributes.bind (·.totalPrice)) 0 }

/-- `` `${customer.firstName || ''} ${customer.lastName || ''}`.trim() ``. -/
def customerDisplayName (c : KaspiCustomer) : String :=
  (jsOrString c.firstName "" ++ " " ++ jsOrString c.lastName "").trim

/-- One iteration of the order loop in `processOrders`: returns the row to
insert, or `none` when the order is skipped (invalid format, already stored,
or missing customer information). -/
def processOneOrder (env : KaspiEnv) (db : List StoredOrder) (ko? : Option RawOrder) :
    Option StoredOrder :=
  match ko? with
  | none => none
  | some ko =>
    if ko.id = "" then none
    else
      match ko.attributes with
      | none => none
      | some attrs =>
        if db.any (fun o => o.kaspiOrderId = ko.id) then none
        else
          let orderItems := (getOrderEntries env ko.id).filterMap (processEntry env)
          match attrs.customer with
          | none => none
          | some customer =>
            some {
              kaspiOrderId := ko.id
              orderDate := attrs.creationDate
              customerPhone := jsOrString customer.cellPhone ""
              customerName := customerDisplayName customer
              orderStatus := "completed"
              orderAmount := jsOrInt attrs.totalPrice 0
              orderItems := orderItems
              notificationStatus := "pending"
              notificationSentAt := none
              notificationError := none }

/-- One fold step of `processOrders`: insert the row produced by
`processOneOrder` (if any) and record it among the saved orders. -/
def processStep (env : KaspiEnv) (acc : List StoredOrder × List StoredOrder)
    (ko? : Option RawOrder) : List StoredOrder × List StoredOrder :=
  match processOneOrder env acc.1 ko? with
  | some saved => (acc.1 ++ [saved], acc.2 ++ [saved])
  | none => acc

/-- `processOrders(kaspiOrders)`: fold the order loop over the batch,
threading the stored table and accumulating the saved rows.  Returns the
updated table and the list of newly saved orders. -/
def processOrders (env : KaspiEnv) (kaspiOrders : List (Option RawOrder))
    (db : List StoredOrder) : List StoredOrder × List StoredOrder :=
  kaspiOrders.foldl (processStep env) (db, [])

/-- Characters `encodeURIComponent` leaves unescaped:
letters, digits, and `- _ . ! ~ * ' ( )`. -/
def isUnreservedChar (c : Char) : Bool :=
  (65 ≤ c.toNat && c.toNat ≤ 90) || (97 ≤ c.toNat && c.toNat ≤ 122) ||
    (48 ≤ c.toNat && c.toNat ≤ 57) ||
    c = '-' || c = '_' || c = '.' || c = '!' || c = '~' || c = '*' ||
    c.toNat = 39 || c = '(' || c = ')'

/-- Upper-case hexadecimal digit for `n < 16`. -/
def hexDigitChar (n : Nat) : Char :=
  if n < 10 then Char.ofNat (48 + n) else Char.ofNat (55 + n)

/-- `%XY` percent-escape of one byte. -/
def percentEncodeByte (b : Nat) : String :=
  String.mk ['%', hexDigitChar (b / 16 % 16), hexDigitChar (b % 16)]

/-- UTF-8 bytes of one scalar value. -/
def utf8EncodeChar (c : Char) : List Nat :=
  let n := c.toNat
  if n < 128 then [n]
  else if n < 2048 then [192 + n / 64, 128 + n % 64]
  else if n < 65536 then [224 + n / 4096, 128 + n / 64 % 64, 128 + n % 64]
  else [240 + n / 262144, 128 + n / 4096 % 64, 128 + n / 64 % 64, 128 + n % 64]

/-- JavaScript `encodeURIComponent`: unreserved characters pass through,
every other character is replaced by the percent-escapes of its UTF-8 bytes. -/
def encodeURIComponent (s : String) : String :=
  s.data.foldl
    (fun acc c =>
      if isUnreservedChar c then acc.push c
      else acc ++ String.join ((utf8EncodeChar c).map percentEncodeByte))
    ""

/-- The rating actually used by `generateReviewLink`: `none` models `NaN`;
any out-of-range value is replaced by the default 5 (`if (isNaN(rating) ||
rating < 1 || rating > 5) rating = 5`). -/
def normalizeRating (rating : Option Int) : Int :=
  match rating with
  | none => 5
  | some r => if r < 1 ∨ r > 5 then 5 else r

/-- `generateReviewLink(productCode, orderCode, rating = 5)`: placeholder
`"#"` when either code is absent (falsy), otherwise the fixed review endpoint
with both codes percent-encoded.  The source's default argument corresponds
to calling this with `some 5`. -/
def generateReviewLink (productCode orderCode : String) (rating : Option Int) : String :=
  if productCode = "" ∨ orderCode = "" then "#"
  else
    "https://kaspi.kz/shop/review/productreview?productCode=" ++
      encodeURIComponent productCode ++
      "&orderCode=" ++ encodeURIComponent orderCode ++
      "&rating=" ++ toString (normalizeRating rating)

/-- Spec reading of `generateReviewLink` for comparison: the rating is
clamped into `[1,5]` by saturation (`max 1 (min 5 r)`) instead of being
replaced by the default. -/
def generateReviewLinkSpecClamped (productCode orderCode : String)
    (rating : Option Int) : String :=
  if productCode = "" ∨ orderCode = "" then "#"
  else
    let r : Int := match rating with
      | none => 5
      | some r => max 1 (min 5 r)
    "https://kaspi.kz/shop/review/productreview?productCode=" ++
      encodeURIComponent productCode ++
      "&orderCode=" ++ encodeURIComponent orderCode ++
      "&rating=" ++ toString r

/-- One allow-list row: normalized phone plus active flag.  (`description`
and `userId` do not influence any dispatch decision and are omitted.) -/
structure AllowedPhone where
  phoneNumber : String
  isActive : Bool
  deriving DecidableEq, Repr

/-- `phoneNumber.replace(/\D/g, '')`: keep only the digits. -/
def normalizePhone (s : String) : String :=
  String.mk (s.data.filter fun c => c.isDigit)

/-- `isPhoneAllowed(phoneNumber)` (identical in both WhatsApp services):
a row with the normalized number and `isActive: true` must exist. -/
def isPhoneAllowed (allowed : List AllowedPhone) (phoneNumber : String) : Bool :=
  allowed.any fun p => p.phoneNumber = normalizePhone phoneNumber && p.isActive

/-- Result object of a successful send (`{ success: true, recipient, ... }`);
the Cloud API variant also carries the gateway message id. -/
structure SendResult where
  recipient : String
  messageId : Option String
  deriving DecidableEq, Repr

/-- `order.kaspiOrderId.split('-')[0] || order.kaspiOrderId`. -/
def reviewOrderCode (kaspiOrderId : String) : String :=
  let first := (kaspiOrderId.splitOn "-").headD ""
  if first = "" then kaspiOrderId else first

/-- `order.customerName.split(' ')[0]`. -/
def customerFirstNameOf (order : StoredOrder) : String :=
  (order.customerName.splitOn " ").headD ""

namespace WhatsAppService

/-- Mutable state of the legacy service. -/
structure State where
  isWhatsAppVerified : Bool
  deriving DecidableEq, Repr

/-- `sendMessage(phoneNumber, message)`: throws unless the service is
verified (`checkConnectionStatus().connected` is exactly
`isWhatsAppVerified`); otherwise returns `{ success: true, recipient }`.
No allow-list check is performed here. -/
def sendMessage (st : State) (phoneNumber : String) (_message : String) :
    Except String SendResult :=
  if !st.isWhatsAppVerified then
    .error ("Не удалось отправить WhatsApp сообщение: " ++
      "WhatsApp API не верифицирован. Сначала выполните верификацию номера.")
  else
    .ok { recipient := normalizePhone phoneNumber, messageId := none }

/-- The message text assembled by `sendReviewRequest`. -/
def reviewMessageText (order : StoredOrder) (firstItem : OrderItem)
    (reviewLink : String) : String :=
  "Здравствуйте, " ++ customerFirstNameOf order ++
    "! Поздравляем Вас с покупкой \"" ++ firstItem.name ++
    "\" в магазине \"ТОО \"TRABZON\"\"! Спасибо, что выбрали нас! " ++
    "Мы будем благодарны, если Вы оставите нам отзыв. " ++
    "Вы можете сделать это по ссылке ниже ⬇️ " ++ reviewLink ++
    " (Отправьте нам любое сообщение, чтобы ссылка стала кликабельной) " ++
    "С уважением, ТОО \"TRABZON\""

/-- `sendReviewRequest(order)`: throws when the order has no items,
otherwise builds the review link from the first item and sends the compiled
message to `order.customerPhone`; every error is rethrown wrapped. -/
def sendReviewRequest (st : State) (order : StoredOrder) :
    Except String SendResult :=
  match order.orderItems with
  | [] => .error "Не удалось отправить запрос отзыва: Заказ не содержит товаров"
  | firstItem :: _ =>
    let productCode := firstItem.code
    let orderCode := reviewOrderCode order.kaspiOrderId
    let reviewLink := generateReviewLink productCode orderCode (some 5)
    let message := reviewMessageText order firstItem reviewLink
    match sendMessage st order.customerPhone message with
    | .ok r => .ok r
    | .error e => .error ("Не удалось отправить запрос отзыва: " ++ e)

end WhatsAppService

namespace CloudService

/-- State of the Cloud service: whether `initService` has succeeded. -/
structure State where
  isInitialized : Bool
  deriving DecidableEq, Repr

/-- One HTTP POST to the Cloud gateway (`/{phoneNumberId}/messages`).
Template components beyond the template name are elided. -/
structure GatewayCall where
  recipientPhone : String
  messageType : String
  body : String
  deriving DecidableEq, Repr

/-- External environment of the Cloud service: outcome of a (re-)init
status check and gateway responses (message id on success). -/
structure Env where
  checkStatusOk : Bool
  gateway : GatewayCall → Except String String

/-- `formatPhoneNumber(phoneNumber)`. -/
def formatPhoneNumber (phoneNumber : String) : String :=
  let digits0 := String.mk (phoneNumber.data.filter fun c => c.isDigit)
  let digits :=
    if digits0.startsWith "8" && digits0.length = 11
    then "7" ++ digits0.drop 1 else digits0
  if !phoneNumber.startsWith "+" then "+" ++ digits else digits

/-- `sendTextMessage(phoneNumber, message)` together with the trace of
gateway calls it issues: re-init check, then the allow-list gate (throwing
before any gateway call when the number is not allow-listed), then the POST. -/
def sendTextMessage (st : State) (env : Env) (allowed : List AllowedPhone)
    (phoneNumber message : String) :
    Except String SendResult × List GatewayCall :=
  let inited := st.isInitialized || env.checkStatusOk
  if !inited then
    (.error "Не удалось отправить сообщение: WhatsApp Cloud API не инициализирован", [])
  else
    let formattedPhone := formatPhoneNumber phoneNumber
    if !isPhoneAllowed allowed phoneNumber then
      (.error ("Не удалось отправить сообщение: Номер " ++ formattedPhone ++
        " не находится в списке разрешенных"), [])
    else
      let call : GatewayCall := { recipientPhone := formattedPhone, messageType := "text", body := message }
      match env.gateway call with
      | .ok messageId => (.ok { recipient := formattedPhone, messageId := some messageId }, [call])
      | .error e => (.error ("Не удалось отправить сообщение: " ++ e), [call])

/-- `sendTemplateMessage(phoneNumber, templateName, ...)`: same gates as
`sendTextMessage`, posting a template-typed request. -/
def sendTemplateMessage (st : State) (env : Env) (allowed : List AllowedPhone)
    (phoneNumber templateName : String) :
    Except String SendResult × List GatewayCall :=
  let inited := st.isInitialized || env.checkStatusOk
  if !inited then
    (.error "Не удалось отправить шаблон: WhatsApp Cloud API не инициализирован", [])
  else
    let formattedPhone := formatPhoneNumber phoneNumber
    if !isPhoneAllowed allowed phoneNumber then
      (.error ("Не удалось отправить шаблон: Номер " ++ formattedPhone ++
        " не находится в списке разрешенных"), [])
    else
      let call : GatewayCall :=
        { recipientPhone := formattedPhone, messageType := "template", body := templateName }
      match env.gateway call with
      | .ok messageId => (.ok { recipient := formattedPhone, messageId := some messageId }, [call])
      | .error e => (.error ("Не удалось отправить шаблон: " ++ e), [call])

/-- The freeform fallback text (`messageTemplates.getReviewRequestMessage`,
template compilation collapsed to its compiled content). -/
def reviewRequestFallbackText (order : StoredOrder) (firstItem : OrderItem)
    (reviewLink : String) : String :=
  "Здравствуйте, " ++ customerFirstNameOf order ++ "! Поздравляем Вас с покупкой \"" ++
    firstItem.name ++ "\"! Мы будем благодарны за отзыв: " ++ reviewLink

/-- `sendReviewRequest(order)` of the Cloud service: throws when the order
has no items; otherwise attempts a `review_request` template send, falling
back to a freeform text send when the template send throws; the review link
is built inline (no percent-encoding). -/
def sendReviewRequest (st : State) (env : Env) (allowed : List AllowedPhone)
    (order : StoredOrder) : Except String SendResult × List GatewayCall :=
  match order.orderItems with
  | [] => (.error "Не удалось отправить запрос отзыва: Заказ не содержит товаров", [])
  | firstItem :: _ =>
    let productCode := firstItem.code
    let orderCode := reviewOrderCode order.kaspiOrderId
    let reviewLink := "https://kaspi.kz/shop/review/productreview?productCode=" ++
      productCode ++ "&orderCode=" ++ orderCode ++ "&rating=5"
    match sendTemplateMessage st env allowed order.customerPhone "review_request" with
    | (.ok r, calls) => (.ok r, calls)
    | (.error _, calls1) =>
      let message := reviewRequestFallbackText order firstItem reviewLink
      match sendTextMessage st env allowed order.customerPhone message with
      | (.ok r, calls2) => (.ok r, calls1 ++ calls2)
      | (.error e, calls2) =>
        (.error ("Не удалось отправить запрос отзыва: " ++ e), calls1 ++ calls2)

end CloudService

/-- `orderBy: [['orderDate', 'ASC']]`. -/
def sortByDate (l : List StoredOrder) : List StoredOrder :=
  List.insertionSort (fun a b => a.orderDate ≤ b.orderDate) l

/-- `getOrdersForReviewNotification(limit = 50)`: completed orders with a
pending notification, oldest first, at most `limit` of them; a non-positive
(or NaN) limit falls back to 50. -/
def getOrdersForReviewNotification (db : List StoredOrder) (limit : Int) :
    List StoredOrder :=
  let lim := if limit ≤ 0 then 50 else limit
  ((sortByDate (db.filter fun o =>
      o.orderStatus = "completed" && o.notificationStatus = "pending"))).take lim.toNat

namespace NotificationScheduler

/-- Mutable scheduler state: the daily dispatch window. -/
structure State where
  startHour : Int
  endHour : Int
  deriving DecidableEq, Repr

/-- Constructor defaults: 9:00 to 21:00. -/
def initial : State := { startHour := 9, endHour := 21 }

/-- `setTimeWindow(startHour, endHour)`: apply the new window only when
`startHour >= 0 && startHour <= 23 && endHour >= 0 && endHour <= 23 &&
startHour < endHour`; otherwise log an error and keep the previous window. -/
def setTimeWindow (st : State) (startHour endHour : Int) : State :=
  if 0 ≤ startHour ∧ startHour ≤ 23 ∧ 0 ≤ endHour ∧ endHour ≤ 23 ∧ startHour < endHour
  then { startHour := startHour, endHour := endHour }
  else st

/-- The window validity predicate of the specification. -/
def windowValid (startHour endHour : Int) : Prop :=
  0 ≤ startHour ∧ startHour < endHour ∧ endHour ≤ 23

instance (s e : Int) : Decidable (windowValid s e) := by
  unfold windowValid
  infer_instance

end NotificationScheduler

/-- Per-order result entry pushed by `manualSendReviewRequests`
(`{ orderId, status: 'success', recipient }` or
`{ orderId, status: 'failed', error }`). -/
structure DispatchResult where
  orderId : String
  status : String
  recipient : Option String
  error : Option String
  deriving DecidableEq, Repr

/-- `order.update({...})` applied to the stored table: rewrite the row whose
`kaspiOrderId` matches. -/
def updateOrderRow (db : List StoredOrder) (id : String)
    (f : StoredOrder → StoredOrder) : List StoredOrder :=
  db.map fun o => if o.kaspiOrderId = id then f o else o

/-- The per-order `try/catch` body shared by the dispatch loops: on success
set `notificationStatus = 'sent'` and `notificationSentAt = now` (the stored
error field is not touched); on failure set `notificationStatus = 'failed'`
and store the error message.  Returns the updated table and the result entry
`manualSendReviewRequests` pushes. -/
def applySendOutcome (now : Int) (db : List StoredOrder) (order : StoredOrder)
    (outcome : Except String SendResult) : List StoredOrder × DispatchResult :=
  match outcome with
  | .ok _ =>
      (updateOrderRow db order.kaspiOrderId fun o =>
        { o with notificationStatus := "sent", notificationSentAt := some now },
       { orderId := order.kaspiOrderId, status := "success",
         recipient := some order.customerPhone, error := none })
  | .error e =>
      (updateOrderRow db order.kaspiOrderId fun o =>
        { o with notificationStatus := "failed", notificationError := some e },
       { orderId := order.kaspiOrderId, status := "failed",
         recipient := none, error := some e })

/-- One iteration of the manual dispatch loop. -/
def dispatchStep (wst : WhatsAppService.State) (now : Int)
    (acc : List StoredOrder × List DispatchResult) (order : StoredOrder) :
    List StoredOrder × List DispatchResult :=
  let step := applySendOutcome now acc.1 order
    (WhatsAppService.sendReviewRequest wst order)
  (step.1, acc.2 ++ [step.2])

/-- `manualSendReviewRequests(limit = 10)`: select up to `limit` eligible
orders, then for each order send via the legacy WhatsApp service, catching
each order's failure inside the loop.  Returns the updated table and the
per-order results. -/
def manualSendReviewRequests (wst : WhatsAppService.State) (db : List StoredOrder)
    (limit : Int) (now : Int) : List StoredOrder × List DispatchResult :=
  (getOrdersForReviewNotification db limit).foldl (dispatchStep wst now) (db, [])

/-- The scheduled `sendReviewRequests()`: a no-op outside the dispatch
window (`currentHour < startHour || currentHour >= endHour`), otherwise the
same loop as the manual path with limit 20 and no result list. -/
def sendReviewRequests (sch : NotificationScheduler.State)
    (wst : WhatsAppService.State) (db : List StoredOrder)
    (currentHour : Int) (now : Int) : List StoredOrder :=
  if currentHour < sch.startHour ∨ currentHour ≥ sch.endHour then db
  else
    (getOrdersForReviewNotification db 20).foldl
      (fun dbAcc order =>
        (applySendOutcome now dbAcc order
          (WhatsAppService.sendReviewRequest wst order)).1)
      db

/-- Per-window response oracle for `fetchNewOrders`: `.error` models a
failed request, `.ok none` a response without a `data` array, `.ok (some l)`
a page of raw orders. -/
structure FetchEnv where
  ordersPage : Int × Int → Except String (Option (List (Option RawOrder)))

/-- `fetchNewOrders(fromDate, toDate)`: missing or invalid dates and an
empty split both throw inside the outer `try`, whose catch returns `[]`; a
failure in one window is caught inside the loop (`continue`), so the
remaining windows still accumulate. -/
def fetchNewOrders (env : FetchEnv) (fromDate toDate : Option Int) :
    List (Option RawOrder) :=
  match fromDate, toDate with
  | some f, some t =>
    let dateRanges := splitDateRange f t
    if dateRanges.isEmpty then []
    else
      dateRanges.foldl
        (fun allOrders range =>
          match env.ordersPage range with
          | .ok (some orders) => allOrders ++ orders
          | .ok none => allOrders
          | .error _ => allOrders)
        []
  | _, _ => []

/-- External ids of the stored table. -/
def storedIds (db : List StoredOrder) : List String :=
  db.map (·.kaspiOrderId)

/-- Oracle with no entries and no products. -/
def emptyKaspiEnv : KaspiEnv where
  orderEntries := fun _ => []
  productDetails := fun _ => none

/-- A raw order whose customer object is present but has no phone. -/
def c3RawOrder : RawOrder where
  id := "ORD3"
  attributes := some {
    customer := some { cellPhone := none, firstName := some "Aidar", lastName := none }
    creationDate := 0
    totalPrice := some 100 }

/-- The attributes of the C3 witness order: no customer object at all. -/
def c3wAttrs : KaspiOrderAttributes where
  customer := none
  creationDate := 5
  totalPrice := none

/-- The C3 witness order. -/
def c3wRaw : RawOrder where
  id := "W3"
  attributes := some c3wAttrs

/-- The ways a line entry is individually skipped by the item loop: the
entry itself, its `relationships`, the `product` relationship or the product
`data` is missing, or the product lookup yields nothing. -/
def entryMalformed (env : KaspiEnv) : Option RawEntry → Prop
  | none => True
  | some re =>
    re.relationships = none ∨
    ∃ rel, re.relationships = some rel ∧
      (rel.product = none ∨
        ∃ pref, rel.product = some pref ∧
          (pref.data = none ∨
            ∃ pdata, pref.data = some pdata ∧ getProductDetails env pdata.id = none))

/-- Oracle for the C5 scenario: order `ORD5` has three line entries, the
second of which is malformed (no `relationships`); product `p1` resolves
fully, product `p3` resolves without name/code attributes. -/
def c5Env : KaspiEnv where
  orderEntries := fun oid =>
    if oid = "ORD5" then
      [some { id := "e1"
              relationships := some { product := some { data := some { id := "p1" } } }
              attributes := some { quantity := some 2, basePrice := some 50,
                                   totalPrice := some 100 } },
       some { id := "e2", relationships := none
              attributes := some { quantity := some 1, basePrice := some 10,
                                   totalPrice := some 10 } },
       some { id := "e3"
              relationships := some { product := some { data := some { id := "p3" } } }
              attributes := none }]
    else []
  productDetails := fun pid =>
    if pid = "p1" then some { attributes := some { name := some "Чайник", code := some "K100" } }
    else if pid = "p3" then some { attributes := none }
    else none

/-- Customer of the C5 scenario order. -/
def c5Customer : KaspiCustomer where
  cellPhone := some "+77001234567"
  firstName := some "Aidar"
  lastName := some "B"

/-- Attributes of the C5 scenario order. -/
def c5Attrs : KaspiOrderAttributes where
  customer := some c5Customer
  creationDate := 1000
  totalPrice := some 110

/-- The C5 scenario order. -/
def c5RawOrder : RawOrder where
  id := "ORD5"
  attributes := some c5Attrs

/-- First well-formed item of the C5 scenario. -/
def c5Item1 : OrderItem where
  entryId := "e1"
  productId := "p1"
  name := "Чайник"
  code := "K100"
  quantity := 2
  unitPrice := 50
  totalPrice := 100

/-- Third item of the C5 scenario: name and quantity fall back. -/
def c5Item3 : OrderItem where
  entryId := "e3"
  productId := "p3"
  name := "Unknown Product"
  code := ""
  quantity := 1
  unitPrice := 0
  totalPrice := 0

/-- The orders one window contributes to `fetchNewOrders`: the page data on
success, nothing on a missing `data` envelope or a failed request. -/
def windowData (env : FetchEnv) (range : Int × Int) : List (Option RawOrder) :=
  match env.ordersPage range with
  | .ok (some orders) => orders
  | .ok none => []
  | .error _ => []

/-- A raw order served by the C6 witness oracle. -/
def c6RawOrder : RawOrder where
  id := "ORD6"
  attributes := none

/-- Fetch oracle for the C6 witness: the first window succeeds with one raw
order, every other request fails. -/
def c6Env : FetchEnv where
  ordersPage := fun range =>
    if range.1 = 0 then .ok (some [some c6RawOrder]) else .error "network error"

/-- `Order.findOne` by external id over the stored table (first match). -/
def lookupId : List StoredOrder → String → Option StoredOrder
  | [], _ => none
  | o :: rest, id => if o.kaspiOrderId = id then some o else lookupId rest id

/-- The result entry one loop iteration pushes for `order`. -/
def dispatchEntry (wst : WhatsAppService.State) (order : StoredOrder) : DispatchResult :=
  match WhatsAppService.sendReviewRequest wst order with
  | .ok _ => { orderId := order.kaspiOrderId, status := "success",
               recipient := some order.customerPhone, error := none }
  | .error e => { orderId := order.kaspiOrderId, status := "failed",
                  recipient := none, error := some e }

/-- The stored row after one loop iteration for `order`. -/
def dispatchRow (wst : WhatsAppService.State) (now : Int) (order : StoredOrder) :
    StoredOrder :=
  match WhatsAppService.sendReviewRequest wst order with
  | .ok _ => { order with notificationStatus := "sent", notificationSentAt := some now }
  | .error e => { order with notificationStatus := "failed", notificationError := some e }

/-- The field update one loop iteration applies to the stored row. -/
def rowUpdateFn (wst : WhatsAppService.State) (now : Int) (order : StoredOrder) :
    StoredOrder → StoredOrder :=
  match WhatsAppService.sendReviewRequest wst order with
  | .ok _ => fun o => { o with notificationStatus := "sent", notificationSentAt := some now }
  | .error e => fun o => { o with notificationStatus := "failed", notificationError := some e }

/-- The single item of the C8 counterexample order. -/
def c8Item : OrderItem where
  entryId := "e8"
  productId := "p8"
  name := "Книга"
  code := "B8"
  quantity := 1
  unitPrice := 10
  totalPrice := 10

/-- A pending order carrying a stale error from an earlier attempt. -/
def c8Order : StoredOrder where
  kaspiOrderId := "ORD8-1"
  orderDate := 0
  customerPhone := "77010000001"
  customerName := "Samat K"
  orderStatus := "completed"
  orderAmount := 10
  orderItems := [c8Item]
  notificationStatus := "pending"
  notificationSentAt := none
  notificationError := some "old failure"

/-- An item-less stored order (as ingestion produces when every entry of the
order fails to resolve). -/
def c10Order : StoredOrder where
  kaspiOrderId := "ORD10"
  orderDate := 0
  customerPhone := "77010000002"
  customerName := "Nurlan A"
  orderStatus := "completed"
  orderAmount := 0
  orderItems := []
  notificationStatus := "pending"
  notificationSentAt := none
  notificationError := none

/-- Cloud environment whose gateway always succeeds (used to show that the
failure does not come from the gateway). -/
def c10CloudEnv : CloudService.Env where
  checkStatusOk := true
  gateway := fun _ => .ok "wamid.X"

/-- The item of the C1 counterexample order. -/
def c1Item : OrderItem where
  entryId := "e0"
  productId := "p0"
  name := "Товар"
  code := "P0"
  quantity := 1
  unitPrice := 5
  totalPrice := 5

/-- A pending completed order whose phone is on no allow-list. -/
def c1Order : StoredOrder where
  kaspiOrderId := "C1ORD-2"
  orderDate := 0
  customerPhone := "77009998877"
  customerName := "Dana T"
  orderStatus := "completed"
  orderAmount := 5
  orderItems := [c1Item]
  notificationStatus := "pending"
  notificationSentAt := none
  notificationError := none

/-- A Cloud environment whose gateway always succeeds. -/
def c1CloudEnv : CloudService.Env where
  checkStatusOk := true
  gateway := fun _ => .ok "wamid.1"

/-! ## Theorems -/

theorem splitGo_chain (finalTo : Int) :
    ∀ currentFrom, windowsChain currentFrom (splitGo finalTo currentFrom) := by
  intro currentFrom
  induction currentFrom using splitGo.induct finalTo with
  | case1 cur h cTo ih =>
      rw [splitGo, if_pos h]
      refine ⟨rfl, ?_, ?_, ih⟩
      · simp only [maxDaysPerRequest, oneDay]
        omega
      · simp only [maxDaysPerRequest, oneDay]
        omega
  | case2 cur h =>
      rw [splitGo, if_neg h]
      trivial

theorem splitGo_bounds (finalTo : Int) :
    ∀ currentFrom, ∀ w ∈ splitGo finalTo currentFrom,
      currentFrom ≤ w.1 ∧ w.1 < w.2 ∧ w.2 ≤ finalTo := by
  intro currentFrom
  induction currentFrom using splitGo.induct finalTo with
  | case1 cur h cTo ih =>
      rw [splitGo, if_pos h]
      intro w hw
      rcases List.mem_cons.mp hw with hw | hw
      · subst hw
        refine ⟨le_refl _, ?_, ?_⟩ <;>
          · simp only [maxDaysPerRequest, oneDay]
            omega
      · have := ih w hw
        refine ⟨?_, this.2.1, this.2.2⟩
        have h1 : cur ≤ min (cur + maxDaysPerRequest * oneDay) finalTo + oneDay := by
          simp only [maxDaysPerRequest, oneDay]
          omega
        exact le_trans h1 this.1
  | case2 cur h =>
      rw [splitGo, if_neg h]
      intro w hw
      exact absurd hw (List.not_mem_nil w)

theorem splitGo_head (finalTo currentFrom : Int) (h : currentFrom < finalTo) :
    ∃ b rest, splitGo finalTo currentFrom = (currentFrom, b) :: rest := by
  rw [splitGo, if_pos h]
  exact ⟨_, _, rfl⟩

theorem splitGo_last (finalTo : Int) :
    ∀ currentFrom, currentFrom < finalTo →
      ∃ w, (splitGo finalTo currentFrom).getLast? = some w ∧
        finalTo - w.2 ≤ oneDay := by
  intro currentFrom
  induction currentFrom using splitGo.induct finalTo with
  | case1 cur h cTo ih =>
      intro _
      rw [splitGo, if_pos h]
      by_cases h2 : cTo + oneDay < finalTo
      · obtain ⟨w, hw, hle⟩ := ih h2
        obtain ⟨b, rest, heq⟩ := splitGo_head finalTo (cTo + oneDay) h2
        refine ⟨w, ?_, hle⟩
        show ((cur, cTo) :: splitGo finalTo (cTo + oneDay)).getLast? = some w
        rw [heq, List.getLast?_cons_cons]
        rw [heq] at hw
        exact hw
      · have hnil : splitGo finalTo (cTo + oneDay) = [] := by
          rw [splitGo, if_neg h2]
        refine ⟨(cur, cTo), ?_, ?_⟩
        · show ((cur, cTo) :: splitGo finalTo (cTo + oneDay)).getLast? = some (cur, cTo)
          rw [hnil]
          rfl
        · show finalTo - cTo ≤ oneDay
          omega
  | case2 cur h =>
      intro hc
      exact absurd hc h

theorem splitDateRange_thirty_days :
    splitDateRange 0 (30 * oneDay) = [(0, 14 * oneDay), (15 * oneDay, 29 * oneDay)] := by
  rw [splitDateRange]
  rw [splitGo]
  norm_num [oneDay, maxDaysPerRequest]
  rw [splitGo]
  norm_num [oneDay, maxDaysPerRequest]
  rw [splitGo]
  norm_num [oneDay, maxDaysPerRequest]

theorem storedIds_append (db1 db2 : List StoredOrder) :
    storedIds (db1 ++ db2) = storedIds db1 ++ storedIds db2 := by
  simp [storedIds]

/-- A row inserted by `processOneOrder` carries the raw order's id, which the
existence check found absent from the table. -/
theorem processOneOrder_fresh (env : KaspiEnv) (db : List StoredOrder)
    (ko? : Option RawOrder) (row : StoredOrder)
    (h : processOneOrder env db ko? = some row) :
    (∃ ko, ko? = some ko ∧ row.kaspiOrderId = ko.id) ∧
      row.kaspiOrderId ∉ storedIds db := by
  match ko? with
  | none => simp [processOneOrder] at h
  | some ko =>
    simp only [processOneOrder] at h
    split at h
    · simp at h
    · split at h
      · simp at h
      · split at h
        · simp at h
        · split at h
          · simp at h
          · rename_i hid xa attrs hattrs hex xc customer hcust
            have hrow : row.kaspiOrderId = ko.id := by
              cases h
              rfl
            refine ⟨⟨ko, rfl, hrow⟩, ?_⟩
            rw [hrow]
            intro hmem
            apply hex
            simp only [storedIds, List.mem_map] at hmem
            obtain ⟨o, ho, hoid⟩ := hmem
            simp only [List.any_eq_true, decide_eq_true_eq]
            exact ⟨o, ho, hoid⟩

/-- `processOneOrder` skips an order whose external id is already stored. -/
theorem processOneOrder_existing (env : KaspiEnv) (db : List StoredOrder)
    (ko : RawOrder) (hmem : ko.id ∈ storedIds db) :
    processOneOrder env db (some ko) = none := by
  have hex : (db.any fun o => o.kaspiOrderId = ko.id) = true := by
    simp only [storedIds, List.mem_map] at hmem
    obtain ⟨o, ho, hoid⟩ := hmem
    simp only [List.any_eq_true, decide_eq_true_eq]
    exact ⟨o, ho, hoid⟩
  rcases hattrs : ko.attributes with _ | attrs <;>
    simp [processOneOrder, hattrs, hex]

/-- The stored-table component of the ingestion fold does not depend on the
saved-orders accumulator. -/
theorem processFold_fst_indep (env : KaspiEnv) :
    ∀ (l : List (Option RawOrder)) (d : List StoredOrder)
      (r r' : List StoredOrder),
      (l.foldl (processStep env) (d, r)).1 = (l.foldl (processStep env) (d, r')).1 := by
  intro l
  induction l with
  | nil => intro d r r'; rfl
  | cons x xs ih =>
      intro d r r'
      simp only [List.foldl_cons]
      unfold processStep
      match h : processOneOrder env d x with
      | some saved => exact ih _ _ _
      | none => exact ih _ _ _

/-- Ingesting a batch preserves uniqueness of stored external ids. -/
theorem processFold_nodup (env : KaspiEnv) :
    ∀ (l : List (Option RawOrder)) (d : List StoredOrder) (r : List StoredOrder),
      (storedIds d).Nodup → (storedIds (l.foldl (processStep env) (d, r)).1).Nodup := by
  intro l
  induction l with
  | nil => intro d r h; exact h
  | cons x xs ih =>
      intro d r h
      simp only [List.foldl_cons]
      unfold processStep
      match hx : processOneOrder env d x with
      | some saved =>
          apply ih
          obtain ⟨_, hfresh⟩ := processOneOrder_fresh env d x saved hx
          rw [storedIds_append]
          simp only [List.nodup_append]
          refine ⟨h, by simp [storedIds], ?_⟩
          intro a ha hb
          simp only [storedIds, List.map_cons, List.map_nil, List.mem_singleton] at hb
          subst hb
          exact hfresh ha
      | none => exact ih d r h

theorem processStep_none (env : KaspiEnv) (acc : List StoredOrder × List StoredOrder)
    (ko? : Option RawOrder) (h : processOneOrder env acc.1 ko? = none) :
    processStep env acc ko? = acc := by
  unfold processStep
  rw [h]

theorem processStep_some (env : KaspiEnv) (acc : List StoredOrder × List StoredOrder)
    (ko? : Option RawOrder) (saved : StoredOrder)
    (h : processOneOrder env acc.1 ko? = some saved) :
    processStep env acc ko? = (acc.1 ++ [saved], acc.2 ++ [saved]) := by
  unfold processStep
  rw [h]

theorem processOrders_cons_skip (env : KaspiEnv) (ko? : Option RawOrder)
    (rest : List (Option RawOrder)) (db : List StoredOrder)
    (h : processOneOrder env db ko? = none) :
    processOrders env (ko? :: rest) db = processOrders env rest db := by
  unfold processOrders
  rw [List.foldl_cons, processStep_none env (db, []) ko? h]

/-- C3 counterexample: an order that is missing the customer *phone* (the
customer object is present, `cellPhone` is absent) is persisted anyway, with
an empty-string phone — `processOrders` only checks for the customer object. -/
theorem C3_counterexample :
    (∃ attrs customer, c3RawOrder.attributes = some attrs ∧
      attrs.customer = some customer ∧ customer.cellPhone = none) ∧
    (processOrders emptyKaspiEnv [some c3RawOrder] []).1.map (·.kaspiOrderId) = ["ORD3"] ∧
    (processOrders emptyKaspiEnv [some c3RawOrder] []).1.map (·.customerPhone) = [""] := by
  refine ⟨⟨_, _, rfl, rfl, rfl⟩, ?_, ?_⟩ <;> rfl

/-- C3 (amended): an order whose `attributes.customer` object is missing
entirely is skipped and never persisted — ingestion of such an order leaves
the stored table exactly as if the order were not in the batch. -/
theorem C3_missing_customer_skipped (env : KaspiEnv) (db : List StoredOrder)
    (ko : RawOrder) (rest : List (Option RawOrder)) (attrs : KaspiOrderAttributes)
    (hattrs : ko.attributes = some attrs) (hcust : attrs.customer = none) :
    processOneOrder env db (some ko) = none ∧
    processOrders env (some ko :: rest) db = processOrders env rest db := by
  have h1 : processOneOrder env db (some ko) = none := by
    simp [processOneOrder, hattrs, hcust]
  exact ⟨h1, processOrders_cons_skip env (some ko) rest db h1⟩

/-- C3 witness. -/
theorem C3_missing_customer_skipped_witness :
    c3wRaw.attributes = some c3wAttrs ∧ c3wAttrs.customer = none ∧
    (processOneOrder emptyKaspiEnv [] (some c3wRaw) = none ∧
     processOrders emptyKaspiEnv [some c3wRaw] [] =
       processOrders emptyKaspiEnv [] []) :=
  ⟨rfl, rfl, C3_missing_customer_skipped emptyKaspiEnv [] c3wRaw [] c3wAttrs rfl rfl⟩

/-- C4: ingestion is idempotent on `kaspiOrderId` — stored ids stay unique
after any batch, an order whose id is already stored is a no-op, and an
immediate duplicate of a raw order in the same batch is dropped. -/
theorem C4_idempotent_ingestion (env : KaspiEnv) (db : List StoredOrder)
    (hnd : (storedIds db).Nodup) :
    (∀ orders, (storedIds (processOrders env orders db).1).Nodup) ∧
    (∀ (ko : RawOrder) rest, ko.id ∈ storedIds db →
      processOrders env (some ko :: rest) db = processOrders env rest db) ∧
    (∀ (ko : RawOrder) rest (db2 : List StoredOrder),
      processOrders env (some ko :: some ko :: rest) db2 =
        processOrders env (some ko :: rest) db2) := by
  refine ⟨fun orders => processFold_nodup env orders db [] hnd, ?_, ?_⟩
  · intro ko rest hmem
    exact processOrders_cons_skip env (some ko) rest db
      (processOneOrder_existing env db ko hmem)
  · intro ko rest db2
    unfold processOrders
    simp only [List.foldl_cons]
    congr 1
    match h : processOneOrder env db2 (some ko) with
    | none =>
        rw [processStep_none env (db2, []) (some ko) h,
          processStep_none env (db2, []) (some ko) h]
    | some row =>
        rw [processStep_some env (db2, []) (some ko) row h]
        obtain ⟨⟨ko', hko', hrow⟩, _⟩ := processOneOrder_fresh env db2 (some ko) row h
        have hko : ko' = ko := by injection hko' with h'; exact h'.symm
        subst hko
        apply processStep_none
        show processOneOrder env (db2 ++ [row]) (some ko') = none
        apply processOneOrder_existing
        rw [storedIds_append]
        apply List.mem_append_right
        simp [storedIds, hrow]

/-- C4 witness. -/
theorem C4_idempotent_ingestion_witness :
    (storedIds []).Nodup ∧
    ((∀ orders, (storedIds (processOrders emptyKaspiEnv orders []).1).Nodup) ∧
     (∀ (ko : RawOrder) rest, ko.id ∈ storedIds [] →
       processOrders emptyKaspiEnv (some ko :: rest) [] =
         processOrders emptyKaspiEnv rest []) ∧
     (∀ (ko : RawOrder) rest (db2 : List StoredOrder),
       processOrders emptyKaspiEnv (some ko :: some ko :: rest) db2 =
         processOrders emptyKaspiEnv (some ko :: rest) db2)) :=
  ⟨List.nodup_nil, C4_idempotent_ingestion emptyKaspiEnv [] List.nodup_nil⟩

theorem processEntry_malformed (env : KaspiEnv) :
    ∀ e, entryMalformed env e → processEntry env e = none := by
  intro e h
  match e with
  | none => rfl
  | some re =>
    simp only [entryMalformed] at h
    rcases h with h | ⟨rel, hrel, h⟩
    · simp [processEntry, h]
    · rcases h with h | ⟨pref, hpref, h⟩
      · simp [processEntry, hrel, h]
      · rcases h with h | ⟨pdata, hdata, h⟩
        · simp [processEntry, hrel, hpref, h]
        · simp [processEntry, hrel, hpref, hdata, h]

/-- Inversion: an item is produced only from a fully well-formed entry with
a resolvable product, and its fields are exactly the source's fallbacks. -/
theorem processEntry_some_inv (env : KaspiEnv) (re : RawEntry) (item : OrderItem)
    (h : processEntry env (some re) = some item) :
    ∃ rel pref pdata pd, re.relationships = some rel ∧ rel.product = some pref ∧
      pref.data = some pdata ∧ getProductDetails env pdata.id = some pd ∧
      item = { entryId := re.id, productId := pdata.id,
               name := jsOrString (pd.attributes.bind (·.name)) "Unknown Product",
               code := jsOrString (pd.attributes.bind (·.code)) "",
               quantity := jsOrInt (re.attributes.bind (·.quantity)) 1,
               unitPrice := jsOrInt (re.attributes.bind (·.basePrice)) 0,
               totalPrice := jsOrInt (re.attributes.bind (·.totalPrice)) 0 } := by
  simp only [processEntry] at h
  split at h
  · simp at h
  · split at h
    · simp at h
    · split at h
      · simp at h
      · split at h
        · simp at h
        · rename_i x1 rel hrel x2 pref hpref x3 pdata hdata x4 pd hpd
          injection h with h
          exact ⟨rel, pref, pdata, pd, hrel, hpref, hdata, hpd, h.symm⟩

/-- C5: per-item fault isolation inside one order — a malformed entry or an
unresolvable product is skipped individually, the order is still persisted
with exactly the well-formed items, the name falls back to `Unknown Product`
and the quantity to 1; in the concrete scenario one bad entry among three
leaves the other two intact. -/
theorem C5_line_item_isolation (env : KaspiEnv) (db : List StoredOrder)
    (ko : RawOrder) (attrs : KaspiOrderAttributes) (customer : KaspiCustomer)
    (hid : ko.id ≠ "") (hattrs : ko.attributes = some attrs)
    (hcust : attrs.customer = some customer) (hnew : ko.id ∉ storedIds db) :
    (∃ row, processOneOrder env db (some ko) = some row ∧
      row.kaspiOrderId = ko.id ∧
      row.orderItems = (getOrderEntries env ko.id).filterMap (processEntry env)) ∧
    (∀ e, entryMalformed env e → processEntry env e = none) ∧
    (∀ re item, processEntry env (some re) = some item →
      ∃ rel pref pdata pd, re.relationships = some rel ∧ rel.product = some pref ∧
        pref.data = some pdata ∧ getProductDetails env pdata.id = some pd ∧
        ((pd.attributes.bind (·.name) = none ∨ pd.attributes.bind (·.name) = some "") →
          item.name = "Unknown Product") ∧
        (re.attributes.bind (·.quantity) = none → item.quantity = 1)) ∧
    (processOrders c5Env [some c5RawOrder] []).1.map (·.orderItems) =
      [[c5Item1, c5Item3]] := by
  have hex : (db.any fun o => o.kaspiOrderId = ko.id) = false := by
    simp only [List.any_eq_false, decide_eq_true_eq]
    intro o ho heq
    exact hnew (by simpa [storedIds, List.mem_map] using ⟨o, ho, heq⟩)
  refine ⟨?_, processEntry_malformed env, ?_, by rfl⟩
  · have hrun : processOneOrder env db (some ko) = some
        { kaspiOrderId := ko.id
          orderDate := attrs.creationDate
          customerPhone := jsOrString customer.cellPhone ""
          customerName := customerDisplayName customer
          orderStatus := "completed"
          orderAmount := jsOrInt attrs.totalPrice 0
          orderItems := (getOrderEntries env ko.id).filterMap (processEntry env)
          notificationStatus := "pending"
          notificationSentAt := none
          notificationError := none } := by
      simp [processOneOrder, hid, hattrs, hcust, hex]
    exact ⟨_, hrun, rfl, rfl⟩
  · intro re item hpe
    obtain ⟨rel, pref, pdata, pd, hrel, hpref, hdata, hpd, hitem⟩ :=
      processEntry_some_inv env re item hpe
    subst hitem
    refine ⟨rel, pref, pdata, pd, hrel, hpref, hdata, hpd, ?_, ?_⟩
    · intro hname
      rcases hname with hname | hname <;> simp [jsOrString, hname]
    · intro hq
      simp [jsOrInt, hq]

/-- C5 witness. -/
theorem C5_line_item_isolation_witness :
    (c5RawOrder.id ≠ "" ∧ c5RawOrder.attributes = some c5Attrs ∧
     c5Attrs.customer = some c5Customer ∧ c5RawOrder.id ∉ storedIds []) ∧
    ((∃ row, processOneOrder c5Env [] (some c5RawOrder) = some row ∧
      row.kaspiOrderId = c5RawOrder.id ∧
      row.orderItems =
        (getOrderEntries c5Env c5RawOrder.id).filterMap (processEntry c5Env)) ∧
    (∀ e, entryMalformed c5Env e → processEntry c5Env e = none) ∧
    (∀ re item, processEntry c5Env (some re) = some item →
      ∃ rel pref pdata pd, re.relationships = some rel ∧ rel.product = some pref ∧
        pref.data = some pdata ∧ getProductDetails c5Env pdata.id = some pd ∧
        ((pd.attributes.bind (·.name) = none ∨ pd.attributes.bind (·.name) = some "") →
          item.name = "Unknown Product") ∧
        (re.attributes.bind (·.quantity) = none → item.quantity = 1)) ∧
    (processOrders c5Env [some c5RawOrder] []).1.map (·.orderItems) =
      [[c5Item1, c5Item3]]) :=
  ⟨⟨by decide, rfl, rfl, by simp [storedIds]⟩,
    C5_line_item_isolation c5Env [] c5RawOrder c5Attrs c5Customer
      (by decide) rfl rfl (by simp [storedIds])⟩

theorem fetch_foldl_eq (env : FetchEnv) :
    ∀ (l : List (Int × Int)) (acc : List (Option RawOrder)),
      l.foldl
        (fun allOrders range =>
          match env.ordersPage range with
          | .ok (some orders) => allOrders ++ orders
          | .ok none => allOrders
          | .error _ => allOrders)
        acc =
      l.foldl (fun acc r => acc ++ windowData env r) acc := by
  intro l
  induction l with
  | nil => intro acc; rfl
  | cons x xs ih =>
      intro acc
      simp only [List.foldl_cons]
      rw [ih]
      congr 1
      unfold windowData
      match env.ordersPage x with
      | .ok (some orders) => rfl
      | .ok none => simp
      | .error _ => simp

theorem foldl_append_nil {α β : Type} (g : β → List α) :
    ∀ (l : List β) (acc : List α), (∀ r ∈ l, g r = []) →
      l.foldl (fun acc r => acc ++ g r) acc = acc := by
  intro l
  induction l with
  | nil => intro acc _; rfl
  | cons x xs ih =>
      intro acc h
      simp only [List.foldl_cons]
      rw [h x (List.mem_cons_self x xs), List.append_nil]
      exact ih acc (fun r hr => h r (List.mem_cons_of_mem x hr))

/-- C6: `fetchNewOrders` is total and best-effort — it returns `[]` (instead
of raising) on missing dates and on an inverted range, always equals the
accumulation of per-window successes (so one failed window is skipped while
the others still contribute), and returns `[]` when every window fails. -/
theorem C6_fetchNewOrders_best_effort (env : FetchEnv) (f t : Option Int) :
    (f = none ∨ t = none → fetchNewOrders env f t = []) ∧
    (∀ a b, f = some a → t = some b → b ≤ a → fetchNewOrders env f t = []) ∧
    (∀ a b, f = some a → t = some b →
      fetchNewOrders env f t =
        (splitDateRange a b).foldl (fun acc r => acc ++ windowData env r) []) ∧
    (∀ a b, f = some a → t = some b →
      (∀ r ∈ splitDateRange a b, windowData env r = []) →
      fetchNewOrders env f t = []) := by
  refine ⟨?_, ?_, ?_, ?_⟩
  · rintro (rfl | rfl)
    · rfl
    · match f with
      | none => rfl
      | some a => rfl
  · rintro a b rfl rfl hba
    have hsplit : splitDateRange a b = [] := by
      rw [splitDateRange, splitGo, if_neg (not_lt.mpr hba)]
    simp [fetchNewOrders, hsplit]
  · rintro a b rfl rfl
    simp only [fetchNewOrders]
    by_cases hempty : (splitDateRange a b).isEmpty
    · rw [if_pos hempty]
      rw [List.isEmpty_iff] at hempty
      rw [hempty]
      rfl
    · rw [if_neg hempty]
      exact fetch_foldl_eq env (splitDateRange a b) []
  · rintro a b rfl rfl hall
    simp only [fetchNewOrders]
    by_cases hempty : (splitDateRange a b).isEmpty
    · rw [if_pos hempty]
    · rw [if_neg hempty, fetch_foldl_eq env (splitDateRange a b) []]
      exact foldl_append_nil (windowData env) (splitDateRange a b) [] hall

/-- C6 witness: on the 30-day range the first window contributes its order
while the second window's failure is skipped. -/
theorem C6_fetchNewOrders_best_effort_witness :
    (fetchNewOrders c6Env (some 0) (some (30 * oneDay)) =
      (splitDateRange 0 (30 * oneDay)).foldl
        (fun acc r => acc ++ windowData c6Env r) []) ∧
    fetchNewOrders c6Env (some 0) (some (30 * oneDay)) = [some c6RawOrder] := by
  refine ⟨(C6_fetchNewOrders_best_effort c6Env (some 0)
    (some (30 * oneDay))).2.2.1 0 (30 * oneDay) rfl rfl, ?_⟩
  simp only [fetchNewOrders]
  rw [splitDateRange_thirty_days]
  rfl

/-- C7: `setTimeWindow` validates `0 ≤ startHour < endHour ≤ 23` — an
invalid update is rejected with the previous window retained, a valid state
stays valid after any update, and `setTimeWindow(9,21)` followed by the
invalid `setTimeWindow(22,20)` leaves the window at `(9,21)`. -/
theorem C7_setTimeWindow_validated (st : NotificationScheduler.State) (s e : Int)
    (hst : NotificationScheduler.windowValid st.startHour st.endHour) :
    (¬ NotificationScheduler.windowValid s e →
      NotificationScheduler.setTimeWindow st s e = st) ∧
    NotificationScheduler.windowValid
      (NotificationScheduler.setTimeWindow st s e).startHour
      (NotificationScheduler.setTimeWindow st s e).endHour ∧
    NotificationScheduler.setTimeWindow
      (NotificationScheduler.setTimeWindow NotificationScheduler.initial 9 21) 22 20 =
      NotificationScheduler.initial := by
  have hiff : (0 ≤ s ∧ s ≤ 23 ∧ 0 ≤ e ∧ e ≤ 23 ∧ s < e) ↔
      NotificationScheduler.windowValid s e := by
    unfold NotificationScheduler.windowValid
    constructor <;> (intro h; omega)
  by_cases hc : 0 ≤ s ∧ s ≤ 23 ∧ 0 ≤ e ∧ e ≤ 23 ∧ s < e
  · refine ⟨fun hnv => absurd (hiff.mp hc) hnv, ?_, by decide⟩
    unfold NotificationScheduler.setTimeWindow
    rw [if_pos hc]
    exact hiff.mp hc
  · have heq : NotificationScheduler.setTimeWindow st s e = st := by
      unfold NotificationScheduler.setTimeWindow
      rw [if_neg hc]
    refine ⟨fun _ => heq, ?_, by decide⟩
    rw [heq]
    exact hst

/-- C7 witness: the spec's concrete scenario. -/
theorem C7_setTimeWindow_validated_witness :
    NotificationScheduler.windowValid
      (NotificationScheduler.setTimeWindow NotificationScheduler.initial 9 21).startHour
      (NotificationScheduler.setTimeWindow NotificationScheduler.initial 9 21).endHour ∧
    ((¬ NotificationScheduler.windowValid 22 20 →
      NotificationScheduler.setTimeWindow
        (NotificationScheduler.setTimeWindow NotificationScheduler.initial 9 21) 22 20 =
        NotificationScheduler.setTimeWindow NotificationScheduler.initial 9 21) ∧
    NotificationScheduler.windowValid
      (NotificationScheduler.setTimeWindow
        (NotificationScheduler.setTimeWindow NotificationScheduler.initial 9 21) 22 20).startHour
      (NotificationScheduler.setTimeWindow
        (NotificationScheduler.setTimeWindow NotificationScheduler.initial 9 21) 22 20).endHour ∧
    NotificationScheduler.setTimeWindow
      (NotificationScheduler.setTimeWindow NotificationScheduler.initial 9 21) 22 20 =
      NotificationScheduler.initial) :=
  ⟨by decide,
    C7_setTimeWindow_validated
      (NotificationScheduler.setTimeWindow NotificationScheduler.initial 9 21) 22 20
      (by decide)⟩

/-- C9 counterexample: the source replaces an out-of-range rating by the
default 5 instead of clamping it into `[1,5]` — at rating 0 the generated
URL carries `rating=5` where the spec's clamping reading would carry
`rating=1`. -/
theorem C9_counterexample :
    generateReviewLink "A" "B" (some 0) =
      "https://kaspi.kz/shop/review/productreview?productCode=A&orderCode=B&rating=5" ∧
    generateReviewLinkSpecClamped "A" "B" (some 0) =
      "https://kaspi.kz/shop/review/productreview?productCode=A&orderCode=B&rating=1" ∧
    generateReviewLink "A" "B" (some 0) ≠ generateReviewLinkSpecClamped "A" "B" (some 0) := by
  refine ⟨by decide, by decide, by decide⟩

/-- C9 (amended): `generateReviewLink` is a total function producing the
fixed review endpoint with both codes percent-encoded; the rating defaults
to 5, an in-range rating is kept, and a `NaN` or out-of-range rating is
replaced by the default 5 (not clamped); a missing code yields the
placeholder `"#"` instead of an exception. -/
theorem C9_generateReviewLink_shape (pc oc : String) (r : Option Int)
    (hpc : pc ≠ "") (hoc : oc ≠ "") :
    1 ≤ normalizeRating r ∧ normalizeRating r ≤ 5 ∧
    normalizeRating none = 5 ∧
    (∀ v, r = some v → 1 ≤ v → v ≤ 5 → normalizeRating r = v) ∧
    (∀ v, r = some v → (v < 1 ∨ 5 < v) → normalizeRating r = 5) ∧
    generateReviewLink pc oc r =
      "https://kaspi.kz/shop/review/productreview?productCode=" ++
        encodeURIComponent pc ++ "&orderCode=" ++ encodeURIComponent oc ++
        "&rating=" ++ toString (normalizeRating r) ∧
    generateReviewLink "" oc r = "#" ∧ generateReviewLink pc "" r = "#" := by
  have hb : 1 ≤ normalizeRating r ∧ normalizeRating r ≤ 5 := by
    match r with
    | none => exact ⟨by norm_num [normalizeRating], by norm_num [normalizeRating]⟩
    | some v =>
        simp only [normalizeRating]
        split
        · omega
        · rename_i hv
          push_neg at hv
          omega
  refine ⟨hb.1, hb.2, rfl, ?_, ?_, ?_, ?_, ?_⟩
  · rintro v rfl h1 h5
    simp only [normalizeRating]
    rw [if_neg]
    omega
  · rintro v rfl hout
    simp only [normalizeRating]
    rw [if_pos hout]
  · unfold generateReviewLink
    rw [if_neg]
    rintro (h | h)
    · exact hpc h
    · exact hoc h
  · unfold generateReviewLink
    rw [if_pos (Or.inl rfl)]
  · unfold generateReviewLink
    rw [if_pos (Or.inr rfl)]

/-- C9 witness. -/
theorem C9_generateReviewLink_shape_witness :
    ("A" ≠ "" ∧ "B" ≠ "") ∧
    (1 ≤ normalizeRating (some 3) ∧ normalizeRating (some 3) ≤ 5 ∧
    normalizeRating none = 5 ∧
    (∀ v, (some 3 : Option Int) = some v → 1 ≤ v → v ≤ 5 →
      normalizeRating (some 3) = v) ∧
    (∀ v, (some 3 : Option Int) = some v → (v < 1 ∨ 5 < v) →
      normalizeRating (some 3) = 5) ∧
    generateReviewLink "A" "B" (some 3) =
      "https://kaspi.kz/shop/review/productreview?productCode=" ++
        encodeURIComponent "A" ++ "&orderCode=" ++ encodeURIComponent "B" ++
        "&rating=" ++ toString (normalizeRating (some 3)) ∧
    generateReviewLink "" "B" (some 3) = "#" ∧
    generateReviewLink "A" "" (some 3) = "#") :=
  ⟨⟨by decide, by decide⟩,
    C9_generateReviewLink_shape "A" "B" (some 3) (by decide) (by decide)⟩

theorem windowsChain_span :
    ∀ (s : Int) (l : List (Int × Int)), windowsChain s l →
      ∀ w ∈ l, w.2 - w.1 ≤ maxDaysPerRequest * oneDay := by
  intro s l
  induction l generalizing s with
  | nil =>
      intro _ w hw
      exact absurd hw (List.not_mem_nil w)
  | cons x xs ih =>
      obtain ⟨a, b⟩ := x
      intro hch w hw
      rcases List.mem_cons.mp hw with rfl | hw
      · exact hch.2.2.1
      · exact ih (b + oneDay) hch.2.2.2 w hw

/-- C2 counterexample: a 30-day span yields 2 windows (not 3), and the
instant one millisecond into the skipped 15th day is inside `[from,to]` but
covered by no window — the windows advance a full day, not one time unit. -/
theorem C2_counterexample :
    splitDateRange 0 (30 * oneDay) = [(0, 14 * oneDay), (15 * oneDay, 29 * oneDay)] ∧
    (splitDateRange 0 (30 * oneDay)).length ≠ 3 ∧
    ¬ ∃ w ∈ splitDateRange 0 (30 * oneDay),
        w.1 ≤ 14 * oneDay + 1 ∧ 14 * oneDay + 1 ≤ w.2 := by
  refine ⟨splitDateRange_thirty_days, ?_, ?_⟩
  · rw [splitDateRange_thirty_days]
    decide
  · rw [splitDateRange_thirty_days]
    rintro ⟨w, hw, h1, h2⟩
    simp only [List.mem_cons, List.not_mem_nil, or_false] at hw
    rcases hw with rfl | rfl <;> (simp only [oneDay] at h1 h2; omega)

/-- C2 (amended): for `from < to` the splitter returns a chain of non-empty
windows starting at `from`, each at most 14 days long and contained in
`[from,to]`, with each subsequent window starting exactly one *day* (not one
time unit) after the previous window's end; the last window ends at most one
day before `to` (the remainder is dropped), and a 30-day span yields exactly
2 windows of 14 days each. -/
theorem C2_splitDateRange_windows (f t : Int) (h : f < t) :
    windowsChain f (splitDateRange f t) ∧
    (∀ w ∈ splitDateRange f t, f ≤ w.1 ∧ w.1 < w.2 ∧
      w.2 - w.1 ≤ maxDaysPerRequest * oneDay ∧ w.2 ≤ t) ∧
    (∃ b rest, splitDateRange f t = (f, b) :: rest) ∧
    (∃ w, (splitDateRange f t).getLast? = some w ∧ t - w.2 ≤ oneDay) ∧
    splitDateRange 0 (30 * oneDay) = [(0, 14 * oneDay), (15 * oneDay, 29 * oneDay)] := by
  refine ⟨splitGo_chain t f, ?_, splitGo_head t f h, splitGo_last t f h,
    splitDateRange_thirty_days⟩
  intro w hw
  have h1 := splitGo_bounds t f w hw
  have h2 := windowsChain_span f (splitDateRange f t) (splitGo_chain t f) w hw
  exact ⟨h1.1, h1.2.1, h2, h1.2.2⟩

/-- C2 witness. -/
theorem C2_splitDateRange_windows_witness :
    (0 : Int) < 30 * oneDay ∧
    (windowsChain 0 (splitDateRange 0 (30 * oneDay)) ∧
    (∀ w ∈ splitDateRange 0 (30 * oneDay), (0 : Int) ≤ w.1 ∧ w.1 < w.2 ∧
      w.2 - w.1 ≤ maxDaysPerRequest * oneDay ∧ w.2 ≤ 30 * oneDay) ∧
    (∃ b rest, splitDateRange 0 (30 * oneDay) = (0, b) :: rest) ∧
    (∃ w, (splitDateRange 0 (30 * oneDay)).getLast? = some w ∧
      30 * oneDay - w.2 ≤ oneDay) ∧
    splitDateRange 0 (30 * oneDay) = [(0, 14 * oneDay), (15 * oneDay, 29 * oneDay)]) :=
  ⟨by norm_num [oneDay],
    C2_splitDateRange_windows 0 (30 * oneDay) (by norm_num [oneDay])⟩

theorem dispatchStep_fst (wst : WhatsAppService.State) (now : Int)
    (acc : List StoredOrder × List DispatchResult) (order : StoredOrder) :
    (dispatchStep wst now acc order).1 =
      updateOrderRow acc.1 order.kaspiOrderId (rowUpdateFn wst now order) := by
  unfold dispatchStep applySendOutcome rowUpdateFn
  match WhatsAppService.sendReviewRequest wst order with
  | .ok r => rfl
  | .error e => rfl

theorem dispatchStep_snd (wst : WhatsAppService.State) (now : Int)
    (acc : List StoredOrder × List DispatchResult) (order : StoredOrder) :
    (dispatchStep wst now acc order).2 = acc.2 ++ [dispatchEntry wst order] := by
  unfold dispatchStep applySendOutcome dispatchEntry
  match WhatsAppService.sendReviewRequest wst order with
  | .ok r => rfl
  | .error e => rfl

theorem rowUpdateFn_id (wst : WhatsAppService.State) (now : Int)
    (order o : StoredOrder) :
    (rowUpdateFn wst now order o).kaspiOrderId = o.kaspiOrderId := by
  unfold rowUpdateFn
  match WhatsAppService.sendReviewRequest wst order with
  | .ok r => rfl
  | .error e => rfl

theorem rowUpdateFn_self (wst : WhatsAppService.State) (now : Int)
    (order : StoredOrder) :
    rowUpdateFn wst now order order = dispatchRow wst now order := by
  unfold rowUpdateFn dispatchRow
  match WhatsAppService.sendReviewRequest wst order with
  | .ok r => rfl
  | .error e => rfl

theorem dispatch_foldl_snd (wst : WhatsAppService.State) (now : Int) :
    ∀ (l : List StoredOrder) (acc : List StoredOrder × List DispatchResult),
      (l.foldl (dispatchStep wst now) acc).2 = acc.2 ++ l.map (dispatchEntry wst) := by
  intro l
  induction l with
  | nil => intro acc; simp
  | cons x xs ih =>
      intro acc
      simp only [List.foldl_cons, List.map_cons]
      rw [ih, dispatchStep_snd]
      simp [List.append_assoc]

theorem lookupId_update_other (f : StoredOrder → StoredOrder)
    (hf : ∀ o, (f o).kaspiOrderId = o.kaspiOrderId) (oid id : String)
    (hne : oid ≠ id) :
    ∀ db : List StoredOrder, lookupId (updateOrderRow db oid f) id = lookupId db id := by
  intro db
  induction db with
  | nil => rfl
  | cons o rest ih =>
      simp only [updateOrderRow, List.map_cons] at *
      by_cases ho : o.kaspiOrderId = oid
      · rw [if_pos ho]
        show lookupId (f o :: _) id = _
        unfold lookupId
        rw [hf o, ho, if_neg hne, if_neg (ho ▸ hne)]
        exact ih
      · rw [if_neg ho]
        show lookupId (o :: _) id = _
        unfold lookupId
        by_cases hid : o.kaspiOrderId = id
        · rw [if_pos hid, if_pos hid]
        · rw [if_neg hid, if_neg hid]
          exact ih

theorem lookupId_update_self (f : StoredOrder → StoredOrder)
    (hf : ∀ o, (f o).kaspiOrderId = o.kaspiOrderId) (oid : String) :
    ∀ db : List StoredOrder,
      lookupId (updateOrderRow db oid f) oid = Option.map f (lookupId db oid) := by
  intro db
  induction db with
  | nil => rfl
  | cons o rest ih =>
      simp only [updateOrderRow, List.map_cons] at *
      by_cases ho : o.kaspiOrderId = oid
      · rw [if_pos ho]
        show lookupId (f o :: _) oid = _
        unfold lookupId
        rw [hf o, ho, if_pos rfl, if_pos rfl]
        rfl
      · rw [if_neg ho]
        show lookupId (o :: _) oid = _
        unfold lookupId
        rw [if_neg ho, if_neg ho]
        exact ih

theorem lookupId_mem_nodup :
    ∀ (db : List StoredOrder) (order : StoredOrder), order ∈ db →
      (storedIds db).Nodup → lookupId db order.kaspiOrderId = some order := by
  intro db
  induction db with
  | nil =>
      intro order hmem _
      exact absurd hmem (List.not_mem_nil order)
  | cons o rest ih =>
      intro order hmem hnd
      simp only [storedIds, List.map_cons, List.nodup_cons] at hnd
      rcases List.mem_cons.mp hmem with rfl | hmem
      · unfold lookupId
        rw [if_pos rfl]
      · unfold lookupId
        by_cases ho : o.kaspiOrderId = order.kaspiOrderId
        · exfalso
          apply hnd.1
          rw [ho]
          exact List.mem_map.mpr ⟨order, hmem, rfl⟩
        · rw [if_neg ho]
          exact ih order hmem hnd.2

theorem dispatch_foldl_fst_other (wst : WhatsAppService.State) (now : Int) :
    ∀ (l : List StoredOrder) (acc : List StoredOrder × List DispatchResult)
      (id : String), (∀ o ∈ l, o.kaspiOrderId ≠ id) →
      lookupId (l.foldl (dispatchStep wst now) acc).1 id = lookupId acc.1 id := by
  intro l
  induction l with
  | nil => intro acc id _; rfl
  | cons x xs ih =>
      intro acc id hne
      simp only [List.foldl_cons]
      rw [ih _ id (fun o ho => hne o (List.mem_cons_of_mem x ho)),
        dispatchStep_fst]
      exact lookupId_update_other (rowUpdateFn wst now x)
        (rowUpdateFn_id wst now x) x.kaspiOrderId id
        (hne x (List.mem_cons_self x xs)) acc.1

theorem selected_mem (db : List StoredOrder) (limit : Int) :
    ∀ o ∈ getOrdersForReviewNotification db limit, o ∈ db := by
  intro o ho
  unfold getOrdersForReviewNotification at ho
  have h1 := List.mem_of_mem_take ho
  unfold sortByDate at h1
  have h2 := (List.perm_insertionSort
    (fun a b : StoredOrder => a.orderDate ≤ b.orderDate)
    (db.filter fun o =>
      o.orderStatus = "completed" && o.notificationStatus = "pending")).subset h1
  exact List.mem_of_mem_filter h2

theorem selected_ids_nodup (db : List StoredOrder) (limit : Int)
    (hnd : (storedIds db).Nodup) :
    (storedIds (getOrdersForReviewNotification db limit)).Nodup := by
  unfold getOrdersForReviewNotification
  have h1 : (db.filter fun o =>
      o.orderStatus = "completed" && o.notificationStatus = "pending").Sublist db :=
    List.filter_sublist db
  have h2 : (storedIds (db.filter fun o =>
      o.orderStatus = "completed" && o.notificationStatus = "pending")).Nodup :=
    hnd.sublist (h1.map _)
  have h3 : (storedIds (sortByDate (db.filter fun o =>
      o.orderStatus = "completed" && o.notificationStatus = "pending"))).Nodup := by
    unfold sortByDate
    refine (List.Perm.nodup_iff ?_).mpr h2
    exact (List.perm_insertionSort _ _).map _
  exact h3.sublist ((List.take_sublist _ _).map _)

/-- One-shot characterization of `manualSendReviewRequests`: the result list
is exactly one `dispatchEntry` per selected order, and every selected
order's stored row ends as its `dispatchRow`. -/
theorem manual_dispatch_spec (wst : WhatsAppService.State) (db : List StoredOrder)
    (limit now : Int) (hnd : (storedIds db).Nodup) :
    (manualSendReviewRequests wst db limit now).2 =
      (getOrdersForReviewNotification db limit).map (dispatchEntry wst) ∧
    ∀ order ∈ getOrdersForReviewNotification db limit,
      lookupId (manualSendReviewRequests wst db limit now).1 order.kaspiOrderId =
        some (dispatchRow wst now order) := by
  constructor
  · unfold manualSendReviewRequests
    rw [dispatch_foldl_snd]
    rfl
  · intro order hmem
    obtain ⟨l1, l2, hsel⟩ := List.append_of_mem hmem
    have hnd_sel := selected_ids_nodup db limit hnd
    rw [hsel] at hnd_sel
    simp only [storedIds, List.map_append, List.map_cons] at hnd_sel
    have hnd_parts := List.nodup_append.mp hnd_sel
    have hmid := List.nodup_cons.mp hnd_parts.2.1
    have hne1 : ∀ o ∈ l1, o.kaspiOrderId ≠ order.kaspiOrderId := by
      intro o ho heq
      exact (hnd_parts.2.2 (List.mem_map.mpr ⟨o, ho, rfl⟩))
        (by rw [heq]; exact List.mem_cons_self _ _)
    have hne2 : ∀ o ∈ l2, o.kaspiOrderId ≠ order.kaspiOrderId := by
      intro o ho heq
      exact hmid.1 (List.mem_map.mpr ⟨o, ho, heq⟩)
    unfold manualSendReviewRequests
    rw [hsel, List.foldl_append, List.foldl_cons,
      dispatch_foldl_fst_other wst now l2 _ _ hne2, dispatchStep_fst,
      lookupId_update_self (rowUpdateFn wst now order) (rowUpdateFn_id wst now order),
      dispatch_foldl_fst_other wst now l1 _ _ hne1]
    show Option.map _ (lookupId db order.kaspiOrderId) = _
    rw [lookupId_mem_nodup db order (selected_mem db limit order hmem) hnd]
    have hm : Option.map (rowUpdateFn wst now order) (some order) =
        some (rowUpdateFn wst now order order) := rfl
    rw [hm, rowUpdateFn_self]

/-- C8 (amended): one order's failure never aborts the batch — the result
list has exactly one entry per selected order; on success the row is set to
`sent` with `sentAt = now` (the stored error is left unchanged, not cleared
to null); on failure the error message is stored and the status becomes
`failed`. -/
theorem C8_dispatch_batch (wst : WhatsAppService.State) (db : List StoredOrder)
    (limit now : Int) (hnd : (storedIds db).Nodup) :
    (manualSendReviewRequests wst db limit now).2.length =
      (getOrdersForReviewNotification db limit).length ∧
    ∀ order ∈ getOrdersForReviewNotification db limit,
      (∀ r, WhatsAppService.sendReviewRequest wst order = .ok r →
        ({ orderId := order.kaspiOrderId, status := "success",
           recipient := some order.customerPhone, error := none } : DispatchResult)
          ∈ (manualSendReviewRequests wst db limit now).2 ∧
        lookupId (manualSendReviewRequests wst db limit now).1 order.kaspiOrderId =
          some { order with
            notificationStatus := "sent", notificationSentAt := some now }) ∧
      (∀ e, WhatsAppService.sendReviewRequest wst order = .error e →
        ({ orderId := order.kaspiOrderId, status := "failed",
           recipient := none, error := some e } : DispatchResult)
          ∈ (manualSendReviewRequests wst db limit now).2 ∧
        lookupId (manualSendReviewRequests wst db limit now).1 order.kaspiOrderId =
          some { order with
            notificationStatus := "failed", notificationError := some e }) := by
  obtain ⟨hres, hrows⟩ := manual_dispatch_spec wst db limit now hnd
  refine ⟨by rw [hres, List.length_map], ?_⟩
  intro order hmem
  constructor
  · intro r hok
    constructor
    · rw [hres]
      refine List.mem_map.mpr ⟨order, hmem, ?_⟩
      unfold dispatchEntry
      rw [hok]
    · rw [hrows order hmem]
      unfold dispatchRow
      rw [hok]
  · intro e herr
    constructor
    · rw [hres]
      refine List.mem_map.mpr ⟨order, hmem, ?_⟩
      unfold dispatchEntry
      rw [herr]
    · rw [hrows order hmem]
      unfold dispatchRow
      rw [herr]

/-- C8 counterexample: a successful send sets the row to `sent` but does not
clear the stored error to null — the stale message survives, contradicting
the claimed `error = null` on success. -/
theorem C8_counterexample :
    (manualSendReviewRequests ⟨true⟩ [c8Order] 10 777).2.map (·.status) = ["success"] ∧
    (manualSendReviewRequests ⟨true⟩ [c8Order] 10 777).1.map (·.notificationStatus) =
      ["sent"] ∧
    (manualSendReviewRequests ⟨true⟩ [c8Order] 10 777).1.map (·.notificationError) =
      [some "old failure"] ∧
    some "old failure" ≠ (none : Option String) := by
  refine ⟨?_, ?_, ?_, by decide⟩ <;> rfl

/-- C8 witness. -/
theorem C8_dispatch_batch_witness :
    (storedIds [c8Order]).Nodup ∧
    ((manualSendReviewRequests ⟨true⟩ [c8Order] 10 777).2.length =
      (getOrdersForReviewNotification [c8Order] 10).length ∧
    ∀ order ∈ getOrdersForReviewNotification [c8Order] 10,
      (∀ r, WhatsAppService.sendReviewRequest ⟨true⟩ order = .ok r →
        ({ orderId := order.kaspiOrderId, status := "success",
           recipient := some order.customerPhone, error := none } : DispatchResult)
          ∈ (manualSendReviewRequests ⟨true⟩ [c8Order] 10 777).2 ∧
        lookupId (manualSendReviewRequests ⟨true⟩ [c8Order] 10 777).1 order.kaspiOrderId =
          some { order with
            notificationStatus := "sent", notificationSentAt := some 777 }) ∧
      (∀ e, WhatsAppService.sendReviewRequest ⟨true⟩ order = .error e →
        ({ orderId := order.kaspiOrderId, status := "failed",
           recipient := none, error := some e } : DispatchResult)
          ∈ (manualSendReviewRequests ⟨true⟩ [c8Order] 10 777).2 ∧
        lookupId (manualSendReviewRequests ⟨true⟩ [c8Order] 10 777).1 order.kaspiOrderId =
          some { order with
            notificationStatus := "failed", notificationError := some e })) :=
  ⟨by decide, C8_dispatch_batch ⟨true⟩ [c8Order] 10 777 (by decide)⟩

/-- C10: an order with an empty item list makes both services throw before
any gateway interaction (the Cloud trace is empty), and the dispatch loop
records the order as failed with the descriptive error — such an order can
never reach outcome `sent`. -/
theorem C10_itemless_orders_fail (wst : WhatsAppService.State)
    (cst : CloudService.State) (cenv : CloudService.Env)
    (allowed : List AllowedPhone) (order : StoredOrder)
    (hitems : order.orderItems = []) :
    WhatsAppService.sendReviewRequest wst order =
      .error "Не удалось отправить запрос отзыва: Заказ не содержит товаров" ∧
    CloudService.sendReviewRequest cst cenv allowed order =
      (.error "Не удалось отправить запрос отзыва: Заказ не содержит товаров", []) ∧
    ∀ db limit now, (storedIds db).Nodup →
      order ∈ getOrdersForReviewNotification db limit →
      ({ orderId := order.kaspiOrderId, status := "failed", recipient := none,
         error := some "Не удалось отправить запрос отзыва: Заказ не содержит товаров" } :
          DispatchResult) ∈ (manualSendReviewRequests wst db limit now).2 ∧
      lookupId (manualSendReviewRequests wst db limit now).1 order.kaspiOrderId =
        some { order with
          notificationStatus := "failed"
          notificationError :=
            some "Не удалось отправить запрос отзыва: Заказ не содержит товаров" } := by
  have hleg : WhatsAppService.sendReviewRequest wst order =
      .error "Не удалось отправить запрос отзыва: Заказ не содержит товаров" := by
    simp [WhatsAppService.sendReviewRequest, hitems]
  refine ⟨hleg, by simp [CloudService.sendReviewRequest, hitems], ?_⟩
  intro db limit now hnd hmem
  obtain ⟨hres, hrows⟩ := manual_dispatch_spec wst db limit now hnd
  constructor
  · rw [hres]
    refine List.mem_map.mpr ⟨order, hmem, ?_⟩
    unfold dispatchEntry
    rw [hleg]
  · rw [hrows order hmem]
    unfold dispatchRow
    rw [hleg]

/-- C10 witness. -/
theorem C10_itemless_orders_fail_witness :
    c10Order.orderItems = [] ∧
    (WhatsAppService.sendReviewRequest ⟨true⟩ c10Order =
      .error "Не удалось отправить запрос отзыва: Заказ не содержит товаров" ∧
    CloudService.sendReviewRequest ⟨true⟩ c10CloudEnv [] c10Order =
      (.error "Не удалось отправить запрос отзыва: Заказ не содержит товаров", []) ∧
    ∀ db limit now, (storedIds db).Nodup →
      c10Order ∈ getOrdersForReviewNotification db limit →
      ({ orderId := c10Order.kaspiOrderId, status := "failed", recipient := none,
         error := some "Не удалось отправить запрос отзыва: Заказ не содержит товаров" } :
          DispatchResult) ∈ (manualSendReviewRequests ⟨true⟩ db limit now).2 ∧
      lookupId (manualSendReviewRequests ⟨true⟩ db limit now).1 c10Order.kaspiOrderId =
        some { c10Order with
          notificationStatus := "failed"
          notificationError :=
            some "Не удалось отправить запрос отзыва: Заказ не содержит товаров" }) :=
  ⟨rfl, C10_itemless_orders_fail ⟨true⟩ ⟨true⟩ c10CloudEnv [] c10Order rfl⟩

theorem cloud_sendText_not_allowed (cst : CloudService.State)
    (cenv : CloudService.Env) (allowed : List AllowedPhone)
    (phone message : String) (hphone : isPhoneAllowed allowed phone = false) :
    (CloudService.sendTextMessage cst cenv allowed phone message).2 = [] ∧
    ∃ e, (CloudService.sendTextMessage cst cenv allowed phone message).1 =
      Except.error e := by
  unfold CloudService.sendTextMessage
  cases hb : (cst.isInitialized || cenv.checkStatusOk)
  · exact ⟨rfl, _, rfl⟩
  · rw [hphone]
    exact ⟨rfl, _, rfl⟩

theorem cloud_sendTemplate_not_allowed (cst : CloudService.State)
    (cenv : CloudService.Env) (allowed : List AllowedPhone)
    (phone templateName : String) (hphone : isPhoneAllowed allowed phone = false) :
    (CloudService.sendTemplateMessage cst cenv allowed phone templateName).2 = [] ∧
    ∃ e, (CloudService.sendTemplateMessage cst cenv allowed phone templateName).1 =
      Except.error e := by
  unfold CloudService.sendTemplateMessage
  cases hb : (cst.isInitialized || cenv.checkStatusOk)
  · exact ⟨rfl, _, rfl⟩
  · rw [hphone]
    exact ⟨rfl, _, rfl⟩

/-- C1 (amended): in the WhatsApp *Cloud* service, a phone that is not
present-and-active in the allow-list makes every send throw before any
gateway call — the per-order review request ends in an error with an empty
gateway trace.  (The scheduler's own loop goes through the legacy
`whatsappService`, which performs no allow-list check; see the
counterexample.) -/
theorem C1_allowlist_fail_closed (cst : CloudService.State)
    (cenv : CloudService.Env) (allowed : List AllowedPhone) (order : StoredOrder)
    (hphone : isPhoneAllowed allowed order.customerPhone = false) :
    (∀ message,
      (CloudService.sendTextMessage cst cenv allowed order.customerPhone message).2 = [] ∧
      ∃ e, (CloudService.sendTextMessage cst cenv allowed
        order.customerPhone message).1 = Except.error e) ∧
    (∀ templateName,
      (CloudService.sendTemplateMessage cst cenv allowed
        order.customerPhone templateName).2 = [] ∧
      ∃ e, (CloudService.sendTemplateMessage cst cenv allowed
        order.customerPhone templateName).1 = Except.error e) ∧
    ((CloudService.sendReviewRequest cst cenv allowed order).2 = [] ∧
      ∃ e, (CloudService.sendReviewRequest cst cenv allowed order).1 =
        Except.error e) := by
  refine ⟨fun message => cloud_sendText_not_allowed cst cenv allowed _ message hphone,
    fun templateName =>
      cloud_sendTemplate_not_allowed cst cenv allowed _ templateName hphone, ?_⟩
  rcases hitems : order.orderItems with - | ⟨firstItem, restItems⟩
  · simp [CloudService.sendReviewRequest, hitems]
  · obtain ⟨ht2, e1, ht1⟩ := cloud_sendTemplate_not_allowed cst cenv allowed
      order.customerPhone "review_request" hphone
    have hpair : CloudService.sendTemplateMessage cst cenv allowed
        order.customerPhone "review_request" = (Except.error e1, []) := by
      rw [← ht1, ← ht2]
    obtain ⟨hx2, e2, hx1⟩ := cloud_sendText_not_allowed cst cenv allowed
      order.customerPhone
      (CloudService.reviewRequestFallbackText order firstItem
        ("https://kaspi.kz/shop/review/productreview?productCode=" ++
          firstItem.code ++ "&orderCode=" ++ reviewOrderCode order.kaspiOrderId ++
          "&rating=5")) hphone
    have hpair2 : CloudService.sendTextMessage cst cenv allowed order.customerPhone
        (CloudService.reviewRequestFallbackText order firstItem
          ("https://kaspi.kz/shop/review/productreview?productCode=" ++
            firstItem.code ++ "&orderCode=" ++ reviewOrderCode order.kaspiOrderId ++
            "&rating=5")) = (Except.error e2, []) := by
      rw [← hx1, ← hx2]
    simp only [CloudService.sendReviewRequest, hitems]
    rw [hpair, hpair2]
    exact ⟨rfl, _, rfl⟩

/-- C1 counterexample: the scheduler's dispatch path (legacy
`whatsappService`, the one `notificationScheduler` uses) performs no
allow-list check — with the service verified and an *empty* allow-list the
order still ends with outcome success and status `sent`. -/
theorem C1_counterexample :
    isPhoneAllowed [] c1Order.customerPhone = false ∧
    (manualSendReviewRequests ⟨true⟩ [c1Order] 10 0).2.map (·.status) = ["success"] ∧
    (manualSendReviewRequests ⟨true⟩ [c1Order] 10 0).1.map (·.notificationStatus) =
      ["sent"] := by
  refine ⟨by decide, ?_, ?_⟩ <;> rfl

/-- C1 witness. -/
theorem C1_allowlist_fail_closed_witness :
    isPhoneAllowed [] c1Order.customerPhone = false ∧
    ((∀ message,
      (CloudService.sendTextMessage ⟨true⟩ c1CloudEnv [] c1Order.customerPhone
        message).2 = [] ∧
      ∃ e, (CloudService.sendTextMessage ⟨true⟩ c1CloudEnv [] c1Order.customerPhone
        message).1 = Except.error e) ∧
    (∀ templateName,
      (CloudService.sendTemplateMessage ⟨true⟩ c1CloudEnv [] c1Order.customerPhone
        templateName).2 = [] ∧
      ∃ e, (CloudService.sendTemplateMessage ⟨true⟩ c1CloudEnv [] c1Order.customerPhone
        templateName).1 = Except.error e) ∧
    ((CloudService.sendReviewRequest ⟨true⟩ c1CloudEnv [] c1Order).2 = [] ∧
      ∃ e, (CloudService.sendReviewRequest ⟨true⟩ c1CloudEnv [] c1Order).1 =
        Except.error e)) :=
  ⟨by decide, C1_allowlist_fail_closed ⟨true⟩ c1CloudEnv [] c1Order (by decide)⟩

end Bagaber
